import Mathlib

/-!
Shallow embedding of the 2D-Fluid-Solver core (src/solver/FluidSolver.cpp and
src/solver/Cell.h).  Velocities, pressures, positions and times are modelled as
rationals; every operation the embedded code performs on C++ floats is a field
operation, so the algebra carries over exactly.  The Grid class and the Vector2
class of the repository are not under src/; every definition standing in for
them carries a doc comment beginning "Modelled from the spec:" and follows the
specification text.
-/

/-- Cell type flag.  FluidSolver.cpp stores it in a field named cellType and
uses the values Cell::FLUID and Cell::SOLID; the spec lists the admissible
values as FLUID, EMPTY and SOLID. -/
inductive CellType
  | FLUID
  | EMPTY
  | SOLID
deriving DecidableEq

/-- Cell (src/solver/Cell.h): cell-centered pressure, the two staggered face
velocity components vel[X] and vel[Y], the staged velocity buffer and the type
flag.  Neighbor links are represented by grid index arithmetic, as the spec
recommends: the +X neighbor of (x, y) is (x+1, y) and is present iff
x+1 < colCount, and likewise for +Y. -/
structure Cell where
  pressure : ℚ
  velX : ℚ
  velY : ℚ
  stagedVelX : ℚ
  stagedVelY : ℚ
  cellType : CellType
deriving DecidableEq

/-- Ceiling of a rational, truncated at zero.  A C++ float loop of the form
(for x = 0; x < w; x = x + 1) runs this many iterations. -/
def natCeil (q : ℚ) : Nat := (Int.ceil q).toNat

/-- Modelled from the spec: the Grid owns a fixed flat array of Cells sized
rows by cols, derived from the simulation width and height in cell units.  The
cell count matches the iteration bounds of the float loops in FluidSolver.cpp,
namely the ceiling of each dimension. -/
structure Grid where
  width : ℚ
  height : ℚ
  cells : Nat → Nat → Cell

def Grid.colCount (g : Grid) : Nat := natCeil g.width

def Grid.rowCount (g : Grid) : Nat := natCeil g.height

/-- Pointwise cell write: stands in for the in-place C++ mutation of a single
cell of the grid. -/
def Grid.update (g : Grid) (x y : Nat) (f : Cell → Cell) : Grid :=
  { g with cells := fun i j => if i = x ∧ j = y then f (g.cells i j) else g.cells i j }

def clampQ (lo hi v : ℚ) : ℚ := max lo (min hi v)

/-- Modelled from the spec: the X part of Grid::getVelocity.  X-velocity samples
sit at integer x and half-integer y (the -X face centers); the query point is
clamped into the sample range, so out-of-range queries read the edge samples,
and the four surrounding samples are combined bilinearly (spec 4.2,
velocityAt). -/
def Grid.interpX (g : Grid) (p : ℚ × ℚ) : ℚ :=
  let u := clampQ 0 ((g.colCount - 1 : Nat) : ℚ) p.1
  let v := clampQ 0 ((g.rowCount - 1 : Nat) : ℚ) (p.2 - 1/2)
  let i := (Int.floor u).toNat
  let j := (Int.floor v).toNat
  let i1 := min (i + 1) (g.colCount - 1)
  let j1 := min (j + 1) (g.rowCount - 1)
  let fu := u - (i : ℚ)
  let fv := v - (j : ℚ)
  (1 - fu) * (1 - fv) * (g.cells i j).velX + fu * (1 - fv) * (g.cells i1 j).velX
    + (1 - fu) * fv * (g.cells i j1).velX + fu * fv * (g.cells i1 j1).velX

/-- Modelled from the spec: the Y part of Grid::getVelocity.  Y-velocity samples
sit at half-integer x and integer y (the -Y face centers). -/
def Grid.interpY (g : Grid) (p : ℚ × ℚ) : ℚ :=
  let u := clampQ 0 ((g.colCount - 1 : Nat) : ℚ) (p.1 - 1/2)
  let v := clampQ 0 ((g.rowCount - 1 : Nat) : ℚ) p.2
  let i := (Int.floor u).toNat
  let j := (Int.floor v).toNat
  let i1 := min (i + 1) (g.colCount - 1)
  let j1 := min (j + 1) (g.rowCount - 1)
  let fu := u - (i : ℚ)
  let fv := v - (j : ℚ)
  (1 - fu) * (1 - fv) * (g.cells i j).velY + fu * (1 - fv) * (g.cells i1 j).velY
    + (1 - fu) * fv * (g.cells i j1).velY + fu * fv * (g.cells i1 j1).velY

/-- Modelled from the spec: Grid::getVelocity, the bilinearly interpolated
velocity at an arbitrary fractional grid-space point. -/
def Grid.getVelocity (g : Grid) (p : ℚ × ℚ) : ℚ × ℚ := (g.interpX p, g.interpY p)

/-- X-velocity sample used by the divergence: reads vel[X] of the cell when the
indices are inside the grid, and contributes zero where the sample is absent
(beyond the max-X or max-Y boundary the spec declares the links absent). -/
def Grid.velXAt (g : Grid) (x y : Nat) : ℚ :=
  if x < g.colCount ∧ y < g.rowCount then (g.cells x y).velX else 0

/-- Y-velocity sample used by the divergence, with the same bounds rule. -/
def Grid.velYAt (g : Grid) (x y : Nat) : ℚ :=
  if x < g.colCount ∧ y < g.rowCount then (g.cells x y).velY else 0

/-- Modelled from the spec: Grid::getVelocityDivergence, the discrete divergence
(vel_X(x+1,y) - vel_X(x,y)) + (vel_Y(x,y+1) - vel_Y(x,y)) of the staggered
velocity field at integer cell coordinates (spec 4.2, divergenceAt). -/
def Grid.getVelocityDivergence (g : Grid) (x y : Nat) : ℚ :=
  (g.velXAt (x + 1) y - g.velXAt x y) + (g.velYAt x (y + 1) - g.velYAt x y)

/-- Sum over all cells of the absolute value of the discrete divergence; the
aggregate the convergence claim about the incompressibility pass speaks of. -/
def Grid.sumAbsDivergence (g : Grid) : ℚ :=
  (List.range g.colCount).foldl (fun s x =>
    (List.range g.rowCount).foldl (fun s2 y =>
      s2 + |g.getVelocityDivergence x y|) s) 0

/-- Modelled from the spec: the square of Grid::getMaxVelocity().magnitude(),
the maximum over all cells of vel_X^2 + vel_Y^2 (spec 4.2,
maxVelocityMagnitude).  The square keeps the value rational; the source takes
the square root of exactly this quantity, and the root is zero iff the square
is zero. -/
def Grid.maxVelocityMagnitudeSq (g : Grid) : ℚ :=
  (List.range g.colCount).foldl (fun m x =>
    (List.range g.rowCount).foldl (fun m2 y =>
      max m2 ((g.cells x y).velX ^ 2 + (g.cells x y).velY ^ 2)) m) 0

/-- Modelled from the spec: a default constructed Cell has zero pressure, zero
velocities and is not liquid (type EMPTY); Grid construction fills the array
with default cells (spec 4.1). -/
def defaultCell : Cell :=
  { pressure := 0
    velX := 0
    velY := 0
    stagedVelX := 0
    stagedVelY := 0
    cellType := CellType.EMPTY }

/-- Modelled from the spec: Grid::Grid(width, height), a freshly built grid of
default cells. -/
def Grid.init (w h : ℚ) : Grid := { width := w, height := h, cells := fun _ _ => defaultCell }

/-- FluidSolver state: immutable width and height, the grid, the tracer
particle list and the frame-ready flag (FluidSolver.h usage visible in
FluidSolver.cpp). -/
structure FluidSolver where
  width : ℚ
  height : ℚ
  grid : Grid
  particles : List (ℚ × ℚ)
  frameReady : Bool

/-- The per-cell write of FluidSolver::reset (lines 54-57): type FLUID, unit
pressure and a synthetic velocity field built from the C library sin.  sin is
transcendental, so the embedding takes it as the parameter sinFn; the decimal
constants of the source are exact rationals. -/
def resetCellWrite (sinFn : ℚ → ℚ) (x y : Nat) (c : Cell) : Cell :=
  { c with
    cellType := CellType.FLUID
    pressure := 1
    velX := sinFn ((x : ℚ) * (45215/1000) + (y : ℚ) * (8815468/100000)) / 2
    velY := sinFn ((x : ℚ) * (2548/1000) + (y : ℚ) * (1211215/10000)) / 2 }

/-- The sixteen tracer particles FluidSolver::reset pushes for the cell at
(x, y): a 4 by 4 sub-grid at offsets 0.20 * (i + 1) (lines 59-62). -/
def particlesForCell (x y : Nat) : List (ℚ × ℚ) :=
  (List.range 4).foldl (fun acc i =>
    (List.range 4).foldl (fun acc2 j =>
      acc2 ++ [((x : ℚ) + (1/5) * ((i : ℚ) + 1), (y : ℚ) + (1/5) * ((j : ℚ) + 1))]) acc) []

/-- FluidSolver::reset (lines 37-68): clears the particles, rebuilds a grid in
which every cell covered by the float loops is FLUID at unit pressure with the
synthetic velocity field, repopulates the tracer particles and clears the
frame-ready flag.  The loops run y outer and x inner, each from 0 while below
the corresponding dimension. -/
def reset (sinFn : ℚ → ℚ) (s : FluidSolver) : FluidSolver :=
  let grid := (List.range (natCeil s.height)).foldl (fun acc y =>
    (List.range (natCeil s.width)).foldl (fun acc2 x =>
      acc2.update x y (resetCellWrite sinFn x y)) acc) (Grid.init s.width s.height)
  let particles := (List.range (natCeil s.height)).foldl (fun acc y =>
    (List.range (natCeil s.width)).foldl (fun acc2 x =>
      acc2 ++ particlesForCell x y) acc) ([] : List (ℚ × ℚ))
  { s with grid := grid, particles := particles, frameReady := false }

/-- FluidSolver::FluidSolver(width, height) (lines 14-27): stores the
dimensions, builds the grid and calls reset().  The constructor performs no
validation of width or height. -/
def mkFluidSolver (w h : ℚ) (sinFn : ℚ → ℚ) : FluidSolver :=
  reset sinFn
    { width := w, height := h, grid := Grid.init w h, particles := [], frameReady := false }

/-- The boundary clamp of FluidSolver::advectVelocity, exactly as written in the
source (lines 119-126 and 134-141): the second comparison tests position.y
against the grid WIDTH and on success writes position.x. -/
def advectClamp (g : Grid) (p : ℚ × ℚ) : ℚ × ℚ :=
  let p1 := if p.1 < 0 then ((0 : ℚ), p.2) else p
  let p2 := if p1.2 > g.width then (g.width, p1.2) else p1
  let p3 := if p2.2 < 0 then (p2.1, (0 : ℚ)) else p2
  if p3.2 > g.height then (p3.1, g.height) else p3

/-- The clamp the spec describes as the intended behavior: each axis clamped
independently into the valid range of that axis, x into [0, width] and y into
[0, height]. -/
def specClampAxes (g : Grid) (p : ℚ × ℚ) : ℚ × ℚ :=
  (clampQ 0 g.width p.1, clampQ 0 g.height p.2)

/-- One iteration of the first advection loop (lines 114-128): the X face
sample of cell (xi, k) sits at position (xi, k + 1/2); trace backward along the
current field by dt, apply the source clamp, sample the field there and stage
the X component. -/
def advectStepX (dt : ℚ) (acc : Grid) (xi k : Nat) : Grid :=
  let pos : ℚ × ℚ := ((xi : ℚ), (k : ℚ) + 1/2)
  let vel := acc.getVelocity pos
  let pos2 : ℚ × ℚ := (pos.1 - vel.1 * dt, pos.2 - vel.2 * dt)
  let pos3 := advectClamp acc pos2
  acc.update xi k (fun c => { c with stagedVelX := (acc.getVelocity pos3).1 })

/-- One iteration of the second advection loop (lines 129-143): the Y face
sample of cell (k, yi) sits at (k + 1/2, yi). -/
def advectStepY (dt : ℚ) (acc : Grid) (k yi : Nat) : Grid :=
  let pos : ℚ × ℚ := ((k : ℚ) + 1/2, (yi : ℚ))
  let vel := acc.getVelocity pos
  let pos2 : ℚ × ℚ := (pos.1 - vel.1 * dt, pos.2 - vel.2 * dt)
  let pos3 := advectClamp acc pos2
  acc.update k yi (fun c => { c with stagedVelY := (acc.getVelocity pos3).2 })

/-- The commit loop of FluidSolver::advectVelocity (lines 144-146): every cell
of the grid realizes its staged velocity as the current velocity;
Cell::commitStagedVel leaves the staged value unchanged. -/
def Grid.commitAll (g : Grid) : Grid :=
  { g with cells := fun x y =>
      if x < g.colCount ∧ y < g.rowCount then
        let c := g.cells x y
        { c with velX := c.stagedVelX, velY := c.stagedVelY }
      else g.cells x y }

/-- FluidSolver::advectVelocity (lines 112-147): semi-Lagrangian advection.
The first float loop runs x from 0 while x < width and y from 0.5 while
y < height, hence natCeil width times natCeil (height - 1/2) iterations; the
second loop swaps the roles.  Both loops write only staged velocities, then the
commit loop realizes them. -/
def advectVelocity (dt : ℚ) (g : Grid) : Grid :=
  let g1 := (List.range (natCeil g.width)).foldl (fun acc xi =>
    (List.range (natCeil (g.height - 1/2))).foldl (fun acc2 k =>
      advectStepX dt acc2 xi k) acc) g
  let g2 := (List.range (natCeil g.height)).foldl (fun acc yi =>
    (List.range (natCeil (g.width - 1/2))).foldl (fun acc2 k =>
      advectStepY dt acc2 k yi) acc) g1
  g2.commitAll

/-- FluidSolver::applyGlobalVelocity (lines 150-158): adds the given vector to
the velocity components of every cell of the grid. -/
def applyGlobalVelocity (v : ℚ × ℚ) (g : Grid) : Grid :=
  { g with cells := fun x y =>
      if x < g.colCount ∧ y < g.rowCount then
        let c := g.cells x y
        { c with velX := c.velX + v.1, velY := c.velY + v.2 }
      else g.cells x y }

/-- One iteration of the velocity-update loop of FluidSolver::pressureSolve
(lines 169-182): a FLUID cell subtracts dt * pressure from both of its own face
velocities and adds the same amount to the shared face velocity of its +X and
+Y neighbors where those neighbors exist; a non-FLUID cell does nothing. -/
def pressureStep (dt : ℚ) (acc : Grid) (i j : Nat) : Grid :=
  let cell := acc.cells i j
  let pv := dt * cell.pressure
  if cell.cellType = CellType.FLUID then
    let a1 := acc.update i j (fun c => { c with velX := c.velX - pv, velY := c.velY - pv })
    let a2 := if i + 1 < acc.colCount then
        a1.update (i + 1) j (fun c => { c with velX := c.velX + pv }) else a1
    if j + 1 < acc.rowCount then
      a2.update i (j + 1) (fun c => { c with velY := c.velY + pv }) else a2
  else acc

/-- FluidSolver::pressureSolve (lines 161-196): applies the velocity correction
derived from the EXISTING pressure field, then computes a divergence vector
that the source immediately discards; the solve for new pressure values is
absent (the source marks it TODO). -/
def pressureSolve (dt : ℚ) (g : Grid) : Grid :=
  let g1 := (List.range g.colCount).foldl (fun acc x =>
    (List.range g.rowCount).foldl (fun acc2 y =>
      pressureStep dt acc2 x y) acc) g
  let _divergence := (List.range g1.colCount).foldl (fun d x =>
    (List.range g1.rowCount).foldl (fun d2 y =>
      d2 ++ [-(g1.getVelocityDivergence x y)]) d) ([] : List ℚ)
  g1

/-- One iteration of the first loop of FluidSolver::boundaryCollide
(lines 209-214): at column col, zero vel[Y] of the bottom cell, zero vel[X] and
vel[Y] of the top cell and mark the top cell SOLID.  rows is read once before
the loop. -/
def botTopStep (rows : Nat) (acc : Grid) (col : Nat) : Grid :=
  let a1 := acc.update col 0 (fun c => { c with velY := 0 })
  let a2 := a1.update col (rows - 1) (fun c => { c with velX := 0 })
  let a3 := a2.update col (rows - 1) (fun c => { c with velY := 0 })
  a3.update col (rows - 1) (fun c => { c with cellType := CellType.SOLID })

/-- One iteration of the second loop of FluidSolver::boundaryCollide
(lines 218-223): at row, zero vel[X] of the left cell, zero vel[X] and vel[Y]
of the right cell and mark the right cell SOLID. -/
def leftRightStep (cols : Nat) (acc : Grid) (row : Nat) : Grid :=
  let a1 := acc.update 0 row (fun c => { c with velX := 0 })
  let a2 := a1.update (cols - 1) row (fun c => { c with velX := 0 })
  let a3 := a2.update (cols - 1) row (fun c => { c with velY := 0 })
  a3.update (cols - 1) row (fun c => { c with cellType := CellType.SOLID })

/-- FluidSolver::boundaryCollide (lines 199-224). -/
def boundaryCollide (g : Grid) : Grid :=
  let rows := g.rowCount
  let cols := g.colCount
  let g1 := (List.range cols).foldl (botTopStep rows) g
  (List.range rows).foldl (leftRightStep cols) g1

/-- FluidSolver::moveParticles (lines 227-235): forward Euler step of every
tracer along the sampled velocity field. -/
def moveParticles (dt : ℚ) (g : Grid) (ps : List (ℚ × ℚ)) : List (ℚ × ℚ) :=
  ps.map (fun p =>
    let v := g.getVelocity p
    (p.1 + v.1 * dt, p.2 + v.2 * dt))

/-- The gravity constant of FluidSolver::advanceTimeStep (line 102):
(0, -0.098) cells per second squared. -/
def gravity : ℚ × ℚ := (0, -(98/1000))

/-- FluidSolver::advanceTimeStep (lines 100-109): the fixed pipeline advect,
body force, pressure solve, boundary pass, particle move; the particles read
the grid after all of its mutations. -/
def advanceTimeStep (dt : ℚ) (s : FluidSolver) : FluidSolver :=
  let g1 := advectVelocity dt s.grid
  let g2 := applyGlobalVelocity (gravity.1 * dt, gravity.2 * dt) g1
  let g3 := pressureSolve dt g2
  let g4 := boundaryCollide g3
  { s with grid := g4, particles := moveParticles dt g4 s.particles }

/-- The frame duration of FluidSolver::advanceFrame (line 72): 1/30 second. -/
def frameTimeSec : ℚ := 1/30

/-- The CFL coefficient of FluidSolver::advanceFrame (line 73). -/
def CFLCoefficient : ℚ := 2

/-- Lines 84-90 of FluidSolver::advanceFrame translated literally, with the
division read as total field division (so that a zero divisor yields zero, the
Lean convention): simTimeStepSec = CFLCoefficient / magnitude, then clamped
down to the remaining frame time. -/
def subStepUnguarded (magnitude ft : ℚ) : ℚ :=
  let simTimeStepSec := CFLCoefficient / magnitude
  if simTimeStepSec > ft then ft else simTimeStepSec

/-- The sub-step selection of FluidSolver::advanceFrame (lines 84-90) with the
division modelled per IEEE float semantics, on which the source relies: the
divisor is the square root of maxVelocityMagnitudeSq.  When it is zero the
quotient is the IEEE infinity, which the clamp on line 88 replaces by the
remaining frame time; when ft^2 * magSq is at most CFL^2 the true quotient
CFL / sqrt magSq is at least ft, so the clamped sub-step is again exactly ft
and stays rational.  Otherwise the sub-step is CFL / sqrt magSq, irrational in
general and outside this rational embedding, so the function returns none and
the loop below reports no result rather than a wrong one. -/
def subStep (g : Grid) (ft : ℚ) : Option ℚ :=
  if g.maxVelocityMagnitudeSq = 0 then some ft
  else if ft ^ 2 * g.maxVelocityMagnitudeSq ≤ CFLCoefficient ^ 2 then some ft
  else none

/-- The while loop of FluidSolver::advanceFrame (lines 75-96).  fuel bounds the
number of loop iterations the embedding is willing to unfold; a some result
means the loop exited within that many iterations, exactly as the source loop
does. -/
def advanceFrameLoop (fuel : Nat) (s : FluidSolver) (ft : ℚ) : Option FluidSolver :=
  if s.frameReady then some s
  else
    match fuel with
    | 0 => none
    | fuel' + 1 =>
      if ft ≤ 0 then some { s with frameReady := true }
      else
        match subStep s.grid ft with
        | none => none
        | some dt => advanceFrameLoop fuel' (advanceTimeStep dt s) (ft - dt)

/-- FluidSolver::advanceFrame (lines 70-97), with the iteration bound made
explicit. -/
def advanceFrame (fuel : Nat) (s : FluidSolver) : Option FluidSolver :=
  advanceFrameLoop fuel s frameTimeSec

/-- Row-major flattening of the nested x-outer, y-inner loops: the iteration
order of the velocity-update loop of pressureSolve. -/
def pressureIdx (cols rows : Nat) : List (Nat × Nat) :=
  ((List.range cols).map (fun x => (List.range rows).map (fun y => (x, y)))).flatten

/-- The contribution one iteration (i, j) of the pressureSolve loop adds to the
X face velocity of cell (x, y): a FLUID cell (i, j) subtracts dt * pressure
from its own vel[X] and adds it to vel[X] of (i+1, j) when that neighbor
exists. -/
def dVelX (g : Grid) (dt : ℚ) (i j x y : Nat) : ℚ :=
  if (g.cells i j).cellType = CellType.FLUID then
    (if x = i ∧ y = j then -(dt * (g.cells i j).pressure) else 0)
      + (if x = i + 1 ∧ y = j ∧ i + 1 < g.colCount then dt * (g.cells i j).pressure else 0)
  else 0

/-- The contribution one iteration (i, j) of the pressureSolve loop adds to the
Y face velocity of cell (x, y). -/
def dVelY (g : Grid) (dt : ℚ) (i j x y : Nat) : ℚ :=
  if (g.cells i j).cellType = CellType.FLUID then
    (if x = i ∧ y = j then -(dt * (g.cells i j).pressure) else 0)
      + (if x = i ∧ y = j + 1 ∧ j + 1 < g.rowCount then dt * (g.cells i j).pressure else 0)
  else 0

/-- A 4 by 4 grid entirely FLUID at unit pressure (the reset state pressure)
whose only nonzero velocity is the X face velocity of cell (2, 1); its total
absolute divergence is nonzero. -/
def c1Grid : Grid :=
  { width := 4
    height := 4
    cells := fun x y =>
      { pressure := 1
        velX := if x = 2 ∧ y = 1 then 1 else 0
        velY := 0
        stagedVelX := 0
        stagedVelY := 0
        cellType := CellType.FLUID } }

/-- A 2 by 2 grid in which only cell (0, 0) is FLUID (pressure 5); the other
three cells are SOLID with zero pressure.  All velocities are zero. -/
def c4Grid : Grid :=
  { width := 2
    height := 2
    cells := fun x y =>
      if x = 0 ∧ y = 0 then
        { pressure := 5, velX := 0, velY := 0, stagedVelX := 0, stagedVelY := 0,
          cellType := CellType.FLUID }
      else
        { pressure := 0, velX := 0, velY := 0, stagedVelX := 0, stagedVelY := 0,
          cellType := CellType.SOLID } }

/-- A 3 by 3 grid entirely FLUID with nonzero velocities everywhere. -/
def g3x3 : Grid :=
  { width := 3
    height := 3
    cells := fun _ _ =>
      { pressure := 2, velX := 7, velY := 9, stagedVelX := 0, stagedVelY := 0,
        cellType := CellType.FLUID } }

/-- A 2 by 2 all-FLUID grid with nonzero velocities, used to instantiate the
boundary theorems. -/
def bcGrid : Grid :=
  { width := 2
    height := 2
    cells := fun _ _ =>
      { pressure := 1, velX := 3, velY := 4, stagedVelX := 0, stagedVelY := 0,
        cellType := CellType.FLUID } }

/-- A 4 by 4 all-FLUID grid with zero velocity everywhere and unit pressure. -/
def zeroGrid : Grid :=
  { width := 4
    height := 4
    cells := fun _ _ =>
      { pressure := 1, velX := 0, velY := 0, stagedVelX := 0, stagedVelY := 0,
        cellType := CellType.FLUID } }

/-- A solver state whose velocity field is zero everywhere and whose frame is
not yet ready. -/
def zeroSolver : FluidSolver :=
  { width := 4, height := 4, grid := zeroGrid, particles := [], frameReady := false }

/-- A solver state whose frame-ready flag is already set. -/
def readySolver : FluidSolver :=
  { width := 4, height := 4, grid := zeroGrid, particles := [(1/2, 1/2)], frameReady := true }

/-- A solver state with width 4 and height 4, used to instantiate the reset
theorem. -/
def solver44 : FluidSolver :=
  { width := 4, height := 4, grid := Grid.init 4 4, particles := [], frameReady := true }

/-! ## Generic lemmas about grid updates and folds -/

theorem Grid.update_cells (g : Grid) (a b : Nat) (f : Cell → Cell) (x y : Nat) :
    (g.update a b f).cells x y = if x = a ∧ y = b then f (g.cells x y) else g.cells x y := rfl

theorem Grid.update_width (g : Grid) (a b : Nat) (f : Cell → Cell) :
    (g.update a b f).width = g.width := rfl

theorem Grid.update_height (g : Grid) (a b : Nat) (f : Cell → Cell) :
    (g.update a b f).height = g.height := rfl

theorem foldlInv {α β : Type _} (P : β → Prop) (step : β → α → β)
    (hstep : ∀ b a, P b → P (step b a)) :
    ∀ (l : List α) (b : β), P b → P (l.foldl step b)
  | [], _, hb => hb
  | a :: l, b, hb => foldlInv P step hstep l (step b a) (hstep b a hb)

theorem nestedFoldl_eq_flat (step : Grid → Nat × Nat → Grid) (cols rows : Nat) (g : Grid) :
    (List.range cols).foldl (fun acc x =>
        (List.range rows).foldl (fun acc2 y => step acc2 (x, y)) acc) g
      = (pressureIdx cols rows).foldl step g := by
  unfold pressureIdx
  rw [List.foldl_flatten, List.foldl_map]
  simp only [List.foldl_map]

/-! ## Characterization of the pressureSolve velocity update -/

theorem pressureStep_cells (dt : ℚ) (acc : Grid) (i j x y : Nat) :
    (pressureStep dt acc i j).cells x y =
      { acc.cells x y with
        velX := (acc.cells x y).velX + dVelX acc dt i j x y
        velY := (acc.cells x y).velY + dVelY acc dt i j x y } := by
  by_cases hf : (acc.cells i j).cellType = CellType.FLUID
  · by_cases hX : i + 1 < acc.colCount <;> by_cases hY : j + 1 < acc.rowCount <;>
      simp only [pressureStep, dVelX, dVelY, hf, hX, hY, if_true, if_false, ite_true, ite_false,
        and_true, and_false, Grid.update_cells] <;>
      split_ifs <;>
      simp_all [Cell.mk.injEq] <;> try (constructor <;> ring)
  · simp [pressureStep, dVelX, dVelY, hf]

theorem pressureStep_width (dt : ℚ) (acc : Grid) (i j : Nat) :
    (pressureStep dt acc i j).width = acc.width := by
  by_cases hf : (acc.cells i j).cellType = CellType.FLUID <;>
    by_cases hX : i + 1 < acc.colCount <;> by_cases hY : j + 1 < acc.rowCount <;>
      simp only [pressureStep, hf, hX, hY, if_true, if_false, ite_true, ite_false] <;> rfl

theorem pressureStep_height (dt : ℚ) (acc : Grid) (i j : Nat) :
    (pressureStep dt acc i j).height = acc.height := by
  by_cases hf : (acc.cells i j).cellType = CellType.FLUID <;>
    by_cases hX : i + 1 < acc.colCount <;> by_cases hY : j + 1 < acc.rowCount <;>
      simp only [pressureStep, hf, hX, hY, if_true, if_false, ite_true, ite_false] <;> rfl

theorem pressureStep_colCount (dt : ℚ) (acc : Grid) (i j : Nat) :
    (pressureStep dt acc i j).colCount = acc.colCount := by
  unfold Grid.colCount
  rw [pressureStep_width]

theorem pressureStep_rowCount (dt : ℚ) (acc : Grid) (i j : Nat) :
    (pressureStep dt acc i j).rowCount = acc.rowCount := by
  unfold Grid.rowCount
  rw [pressureStep_height]

theorem pressureStep_pressure (dt : ℚ) (acc : Grid) (i j x y : Nat) :
    ((pressureStep dt acc i j).cells x y).pressure = (acc.cells x y).pressure := by
  rw [pressureStep_cells]

theorem pressureStep_cellType (dt : ℚ) (acc : Grid) (i j x y : Nat) :
    ((pressureStep dt acc i j).cells x y).cellType = (acc.cells x y).cellType := by
  rw [pressureStep_cells]

theorem dVelX_congr (g g2 : Grid) (dt : ℚ) (i j x y : Nat)
    (hp : (g2.cells i j).pressure = (g.cells i j).pressure)
    (ht : (g2.cells i j).cellType = (g.cells i j).cellType)
    (hc : g2.colCount = g.colCount) :
    dVelX g2 dt i j x y = dVelX g dt i j x y := by
  unfold dVelX
  rw [hp, ht, hc]

theorem dVelY_congr (g g2 : Grid) (dt : ℚ) (i j x y : Nat)
    (hp : (g2.cells i j).pressure = (g.cells i j).pressure)
    (ht : (g2.cells i j).cellType = (g.cells i j).cellType)
    (hr : g2.rowCount = g.rowCount) :
    dVelY g2 dt i j x y = dVelY g dt i j x y := by
  unfold dVelY
  rw [hp, ht, hr]

theorem pressure_fold_cells (dt : ℚ) (x y : Nat) :
    ∀ (l : List (Nat × Nat)) (g : Grid),
      ((l.foldl (fun acc p => pressureStep dt acc p.1 p.2) g).cells x y) =
        { g.cells x y with
          velX := (g.cells x y).velX + (l.map (fun p => dVelX g dt p.1 p.2 x y)).sum
          velY := (g.cells x y).velY + (l.map (fun p => dVelY g dt p.1 p.2 x y)).sum }
  | [], g => by simp
  | p :: l, g => by
    have ih := pressure_fold_cells dt x y l (pressureStep dt g p.1 p.2)
    have hmapX : (l.map (fun q => dVelX (pressureStep dt g p.1 p.2) dt q.1 q.2 x y))
        = (l.map (fun q => dVelX g dt q.1 q.2 x y)) := by
      refine List.map_congr_left (fun q _ => ?_)
      exact dVelX_congr g _ dt q.1 q.2 x y (pressureStep_pressure ..) (pressureStep_cellType ..)
        (pressureStep_colCount ..)
    have hmapY : (l.map (fun q => dVelY (pressureStep dt g p.1 p.2) dt q.1 q.2 x y))
        = (l.map (fun q => dVelY g dt q.1 q.2 x y)) := by
      refine List.map_congr_left (fun q _ => ?_)
      exact dVelY_congr g _ dt q.1 q.2 x y (pressureStep_pressure ..) (pressureStep_cellType ..)
        (pressureStep_rowCount ..)
    simp only [List.foldl_cons, List.map_cons, List.sum_cons]
    rw [ih, hmapX, hmapY, pressureStep_cells]
    simp [add_assoc]

theorem pressureSolve_cells (dt : ℚ) (g : Grid) (x y : Nat) :
    (pressureSolve dt g).cells x y =
      { g.cells x y with
        velX := (g.cells x y).velX
          + ((pressureIdx g.colCount g.rowCount).map (fun p => dVelX g dt p.1 p.2 x y)).sum
        velY := (g.cells x y).velY
          + ((pressureIdx g.colCount g.rowCount).map (fun p => dVelY g dt p.1 p.2 x y)).sum } := by
  show ((List.range g.colCount).foldl (fun acc x2 =>
      (List.range g.rowCount).foldl (fun acc2 y2 => pressureStep dt acc2 x2 y2) acc) g).cells x y = _
  rw [nestedFoldl_eq_flat (fun acc p => pressureStep dt acc p.1 p.2)]
  exact pressure_fold_cells dt x y _ g

theorem natCeil_four : natCeil 4 = 4 := by
  norm_num [natCeil]
  decide

theorem pressureSolve_width (dt : ℚ) (g : Grid) : (pressureSolve dt g).width = g.width := by
  show ((List.range g.colCount).foldl (fun acc x =>
      (List.range g.rowCount).foldl (fun acc2 y => pressureStep dt acc2 x y) acc) g).width = g.width
  rw [nestedFoldl_eq_flat (fun acc p => pressureStep dt acc p.1 p.2)]
  exact foldlInv (fun g2 => g2.width = g.width)
    (fun (acc : Grid) (p : Nat × Nat) => pressureStep dt acc p.1 p.2)
    (fun b a hb => (pressureStep_width dt b a.1 a.2).trans hb) _ g rfl

theorem pressureSolve_height (dt : ℚ) (g : Grid) : (pressureSolve dt g).height = g.height := by
  show ((List.range g.colCount).foldl (fun acc x =>
      (List.range g.rowCount).foldl (fun acc2 y => pressureStep dt acc2 x y) acc) g).height = g.height
  rw [nestedFoldl_eq_flat (fun acc p => pressureStep dt acc p.1 p.2)]
  exact foldlInv (fun g2 => g2.height = g.height)
    (fun (acc : Grid) (p : Nat × Nat) => pressureStep dt acc p.1 p.2)
    (fun b a hb => (pressureStep_height dt b a.1 a.2).trans hb) _ g rfl

/-! ## Evaluation of pressureSolve on the concrete 4 by 4 grid -/

theorem c1_colCount : c1Grid.colCount = 4 := natCeil_four

theorem c1_rowCount : c1Grid.rowCount = 4 := natCeil_four

theorem pidx44 : pressureIdx 4 4 =
    [(0,0),(0,1),(0,2),(0,3),(1,0),(1,1),(1,2),(1,3),
     (2,0),(2,1),(2,2),(2,3),(3,0),(3,1),(3,2),(3,3)] := by decide

theorem c1_cellType (x y : Nat) : (c1Grid.cells x y).cellType = CellType.FLUID := rfl

theorem c1_pressure (x y : Nat) : (c1Grid.cells x y).pressure = 1 := rfl

theorem c1_velX (x y : Nat) :
    (c1Grid.cells x y).velX = if x = 2 ∧ y = 1 then 1 else 0 := rfl

theorem c1_velY (x y : Nat) : (c1Grid.cells x y).velY = 0 := rfl

theorem c1s_colCount : (pressureSolve (1/30) c1Grid).colCount = 4 := by
  unfold Grid.colCount
  rw [pressureSolve_width]
  exact natCeil_four

theorem c1s_rowCount : (pressureSolve (1/30) c1Grid).rowCount = 4 := by
  unfold Grid.rowCount
  rw [pressureSolve_height]
  exact natCeil_four

theorem c1s_velX (x y : Nat) :
    ((pressureSolve (1/30) c1Grid).cells x y).velX = (c1Grid.cells x y).velX
      + ((pressureIdx 4 4).map (fun p => dVelX c1Grid (1/30) p.1 p.2 x y)).sum := by
  rw [pressureSolve_cells, c1_colCount, c1_rowCount]

theorem c1s_velY (x y : Nat) :
    ((pressureSolve (1/30) c1Grid).cells x y).velY = (c1Grid.cells x y).velY
      + ((pressureIdx 4 4).map (fun p => dVelY c1Grid (1/30) p.1 p.2 x y)).sum := by
  rw [pressureSolve_cells, c1_colCount, c1_rowCount]

theorem c1_sumAbsDivergence : c1Grid.sumAbsDivergence = 2 := by
  norm_num [Grid.sumAbsDivergence, Grid.getVelocityDivergence, Grid.velXAt, Grid.velYAt,
    c1_colCount, c1_rowCount, c1_velX, c1_velY, List.range_succ, List.foldl_append,
    List.foldl_cons, List.foldl_nil, abs_of_nonneg]

set_option maxHeartbeats 1000000 in
theorem c1_solved_sumAbsDivergence :
    (pressureSolve (1/30) c1Grid).sumAbsDivergence = 34/15 := by
  norm_num [Grid.sumAbsDivergence, Grid.getVelocityDivergence, Grid.velXAt, Grid.velYAt,
    c1s_colCount, c1s_rowCount, c1s_velX, c1s_velY, c1_velX, c1_velY, pidx44,
    dVelX, dVelY, c1_cellType, c1_pressure, c1_colCount, c1_rowCount,
    List.range_succ, List.foldl_append, List.foldl_cons, List.foldl_nil,
    List.map_cons, List.map_nil, List.sum_cons, List.sum_nil, abs_of_nonneg]

/-- Claim C1: on the 4 by 4 grid c1Grid, in which every cell is marked FLUID
(with the unit pressure the reset state carries) and the velocity field has
nonzero divergence (total absolute divergence 2), one call to pressureSolve
with dt = 1/30 does NOT strictly reduce the sum over all cells of the absolute
value of the discrete divergence: it raises it from 2 to 34/15.  The source
never solves for pressure (the solve is marked TODO) and corrects velocities
from the stale uniform pressure field, so the claimed strict decrease fails. -/
theorem pressureSolve_c1_divergence_increases :
    (∀ x y, (c1Grid.cells x y).cellType = CellType.FLUID) ∧
    c1Grid.sumAbsDivergence = 2 ∧
    (pressureSolve (1/30) c1Grid).sumAbsDivergence = 34/15 ∧
    ¬ (pressureSolve (1/30) c1Grid).sumAbsDivergence < c1Grid.sumAbsDivergence := by
  refine ⟨fun x y => rfl, c1_sumAbsDivergence, c1_solved_sumAbsDivergence, ?_⟩
  rw [c1_sumAbsDivergence, c1_solved_sumAbsDivergence]
  norm_num

/-! ## Non-FLUID cells and pressureSolve -/

theorem natCeil_two : natCeil 2 = 2 := by
  norm_num [natCeil]
  decide

theorem pidx22 : pressureIdx 2 2 = [(0,0),(0,1),(1,0),(1,1)] := by decide

theorem c4_colCount : c4Grid.colCount = 2 := natCeil_two

theorem c4_rowCount : c4Grid.rowCount = 2 := natCeil_two

theorem dVelX_zero (g : Grid) (dt : ℚ) (i j x y : Nat)
    (h1 : (g.cells x y).cellType ≠ CellType.FLUID)
    (h2 : x = 0 ∨ (g.cells (x - 1) y).cellType ≠ CellType.FLUID) :
    dVelX g dt i j x y = 0 := by
  unfold dVelX
  by_cases hf : (g.cells i j).cellType = CellType.FLUID
  · rw [if_pos hf, if_neg, if_neg, add_zero]
    · rintro ⟨hxi, hyj, -⟩
      rcases h2 with h0 | hnf
      · omega
      · have hi : x - 1 = i := by omega
        rw [hi, hyj] at hnf
        exact hnf hf
    · rintro ⟨hxi, hyj⟩
      rw [hxi, hyj] at h1
      exact h1 hf
  · rw [if_neg hf]

theorem dVelY_zero (g : Grid) (dt : ℚ) (i j x y : Nat)
    (h1 : (g.cells x y).cellType ≠ CellType.FLUID)
    (h3 : y = 0 ∨ (g.cells x (y - 1)).cellType ≠ CellType.FLUID) :
    dVelY g dt i j x y = 0 := by
  unfold dVelY
  by_cases hf : (g.cells i j).cellType = CellType.FLUID
  · rw [if_pos hf, if_neg, if_neg, add_zero]
    · rintro ⟨hxi, hyj, -⟩
      rcases h3 with h0 | hnf
      · omega
      · have hj : y - 1 = j := by omega
        rw [hxi, hj] at hnf
        exact hnf hf
    · rintro ⟨hxi, hyj⟩
      rw [hxi, hyj] at h1
      exact h1 hf
  · rw [if_neg hf]

/-- Claim C4, counterexample: on the 2 by 2 grid c4Grid, cell (1, 0) is not
FLUID and its X face velocity is zero, yet one pressureSolve call with dt = 1
changes that velocity to 5: the FLUID cell (0, 0) pushes its correction through
the neighbor link regardless of the neighbor type.  This refutes the claim
that the vel components of every non-FLUID cell are unchanged. -/
theorem pressureSolve_writes_nonfluid_neighbor :
    (c4Grid.cells 1 0).cellType ≠ CellType.FLUID ∧
    (c4Grid.cells 1 0).velX = 0 ∧
    ((pressureSolve 1 c4Grid).cells 1 0).velX = 5 := by
  refine ⟨by decide, rfl, ?_⟩
  rw [pressureSolve_cells, c4_colCount, c4_rowCount]
  norm_num [pidx22, dVelX, c4Grid, Grid.colCount, natCeil_two]

/-- Claim C4, amended: pressureSolve derives no correction from non-FLUID
cells, but it writes corrections through the neighbor links of FLUID cells
regardless of the neighbor type.  A cell that is not FLUID and whose -X and -Y
neighbors (where present) are also not FLUID is completely unchanged. -/
theorem pressureSolve_nonfluid_untouched (g : Grid) (dt : ℚ) (x y : Nat)
    (h1 : (g.cells x y).cellType ≠ CellType.FLUID)
    (h2 : x = 0 ∨ (g.cells (x - 1) y).cellType ≠ CellType.FLUID)
    (h3 : y = 0 ∨ (g.cells x (y - 1)).cellType ≠ CellType.FLUID) :
    (pressureSolve dt g).cells x y = g.cells x y := by
  rw [pressureSolve_cells]
  have hX : ((pressureIdx g.colCount g.rowCount).map (fun p => dVelX g dt p.1 p.2 x y)).sum = 0 := by
    refine List.sum_eq_zero (fun z hz => ?_)
    rcases List.mem_map.mp hz with ⟨p, -, rfl⟩
    exact dVelX_zero g dt p.1 p.2 x y h1 h2
  have hY : ((pressureIdx g.colCount g.rowCount).map (fun p => dVelY g dt p.1 p.2 x y)).sum = 0 := by
    refine List.sum_eq_zero (fun z hz => ?_)
    rcases List.mem_map.mp hz with ⟨p, -, rfl⟩
    exact dVelY_zero g dt p.1 p.2 x y h1 h3
  rw [hX, hY, add_zero, add_zero]

/-- Witness for the amended C4 theorem at the concrete grid c4Grid, cell
(1, 1). -/
theorem pressureSolve_nonfluid_untouched_witness :
    (c4Grid.cells 1 1).cellType ≠ CellType.FLUID ∧
    (pressureSolve 1 c4Grid).cells 1 1 = c4Grid.cells 1 1 :=
  ⟨by decide,
    pressureSolve_nonfluid_untouched c4Grid 1 1 1 (by decide) (Or.inr (by decide))
      (Or.inr (by decide))⟩

/-! ## Pressure is never written by the pipeline -/

theorem advectStepX_pressure (dt : ℚ) (acc : Grid) (xi k x y : Nat) :
    ((advectStepX dt acc xi k).cells x y).pressure = (acc.cells x y).pressure := by
  simp only [advectStepX, Grid.update_cells]
  split_ifs <;> rfl

theorem advectStepY_pressure (dt : ℚ) (acc : Grid) (k yi x y : Nat) :
    ((advectStepY dt acc k yi).cells x y).pressure = (acc.cells x y).pressure := by
  simp only [advectStepY, Grid.update_cells]
  split_ifs <;> rfl

theorem commitAll_pressure (g : Grid) (x y : Nat) :
    (g.commitAll.cells x y).pressure = (g.cells x y).pressure := by
  simp only [Grid.commitAll]
  split_ifs <;> rfl

theorem advectVelocity_pressure (dt : ℚ) (g : Grid) (x y : Nat) :
    ((advectVelocity dt g).cells x y).pressure = (g.cells x y).pressure := by
  unfold advectVelocity
  rw [commitAll_pressure]
  have h1 : ∀ (l : List Nat) (gg : Grid),
      (gg.cells x y).pressure = (g.cells x y).pressure →
      ((l.foldl (fun acc xi => (List.range (natCeil (g.height - 1/2))).foldl
          (fun acc2 k => advectStepX dt acc2 xi k) acc) gg).cells x y).pressure
        = (g.cells x y).pressure := by
    intro l gg hgg
    refine foldlInv (fun g2 => (g2.cells x y).pressure = (g.cells x y).pressure) _
      (fun b a hb => ?_) l gg hgg
    exact foldlInv (fun g2 => (g2.cells x y).pressure = (g.cells x y).pressure) _
      (fun b2 a2 hb2 => (advectStepX_pressure dt b2 a a2 x y).trans hb2) _ b hb
  have h2 : ∀ (l : List Nat) (gg : Grid),
      (gg.cells x y).pressure = (g.cells x y).pressure →
      ((l.foldl (fun acc yi => (List.range (natCeil (g.width - 1/2))).foldl
          (fun acc2 k => advectStepY dt acc2 k yi) acc) gg).cells x y).pressure
        = (g.cells x y).pressure := by
    intro l gg hgg
    refine foldlInv (fun g2 => (g2.cells x y).pressure = (g.cells x y).pressure) _
      (fun b a hb => ?_) l gg hgg
    exact foldlInv (fun g2 => (g2.cells x y).pressure = (g.cells x y).pressure) _
      (fun b2 a2 hb2 => (advectStepY_pressure dt b2 a2 a x y).trans hb2) _ b hb
  exact h2 _ _ (h1 _ _ rfl)

theorem applyGlobalVelocity_pressure (v : ℚ × ℚ) (g : Grid) (x y : Nat) :
    ((applyGlobalVelocity v g).cells x y).pressure = (g.cells x y).pressure := by
  simp only [applyGlobalVelocity]
  split_ifs <;> rfl

theorem pressureSolve_pressure (dt : ℚ) (g : Grid) (x y : Nat) :
    ((pressureSolve dt g).cells x y).pressure = (g.cells x y).pressure := by
  rw [pressureSolve_cells]

theorem botTopStep_pressure (rows : Nat) (acc : Grid) (col x y : Nat) :
    ((botTopStep rows acc col).cells x y).pressure = (acc.cells x y).pressure := by
  simp only [botTopStep, Grid.update_cells]
  split_ifs <;> rfl

theorem leftRightStep_pressure (cols : Nat) (acc : Grid) (row x y : Nat) :
    ((leftRightStep cols acc row).cells x y).pressure = (acc.cells x y).pressure := by
  simp only [leftRightStep, Grid.update_cells]
  split_ifs <;> rfl

theorem boundaryCollide_pressure (g : Grid) (x y : Nat) :
    ((boundaryCollide g).cells x y).pressure = (g.cells x y).pressure := by
  unfold boundaryCollide
  refine foldlInv (fun g2 => (g2.cells x y).pressure = (g.cells x y).pressure) _
    (fun b a hb => (leftRightStep_pressure g.colCount b a x y).trans hb) _ _ ?_
  exact foldlInv (fun g2 => (g2.cells x y).pressure = (g.cells x y).pressure) _
    (fun b a hb => (botTopStep_pressure g.rowCount b a x y).trans hb) _ g rfl

/-- Claim C9: no stage of the per-step pipeline writes any pressure.  For every
solver state, time step and cell, the pressure after advanceTimeStep (advect,
body force, pressure solve, boundary pass, particle move) equals the pressure
before, and in particular pressureSolve alone leaves every pressure unchanged:
the divergence vector it computes is discarded without any pressure write. -/
theorem advanceTimeStep_preserves_pressure (s : FluidSolver) (dt : ℚ) (x y : Nat) :
    (((advanceTimeStep dt s).grid.cells x y).pressure = ((s.grid.cells x y)).pressure) ∧
    (∀ g : Grid, ((pressureSolve dt g).cells x y).pressure = (g.cells x y).pressure) := by
  constructor
  · show ((boundaryCollide (pressureSolve dt (applyGlobalVelocity (gravity.1 * dt, gravity.2 * dt)
      (advectVelocity dt s.grid)))).cells x y).pressure = ((s.grid.cells x y)).pressure
    rw [boundaryCollide_pressure, pressureSolve_pressure, applyGlobalVelocity_pressure,
      advectVelocity_pressure]
  · exact fun g => pressureSolve_pressure dt g x y

/-! ## Characterization of boundaryCollide -/

theorem botTopStep_cells (rows : Nat) (acc : Grid) (col x y : Nat) :
    (botTopStep rows acc col).cells x y =
      if x = col ∧ y = rows - 1 then
        { acc.cells x y with velX := 0, velY := 0, cellType := CellType.SOLID }
      else if x = col ∧ y = 0 then { acc.cells x y with velY := 0 }
      else acc.cells x y := by
  simp only [botTopStep, Grid.update_cells]
  split_ifs <;> first | rfl | omega

theorem leftRightStep_cells (cols : Nat) (acc : Grid) (row x y : Nat) :
    (leftRightStep cols acc row).cells x y =
      if y = row ∧ x = cols - 1 then
        { acc.cells x y with velX := 0, velY := 0, cellType := CellType.SOLID }
      else if y = row ∧ x = 0 then { acc.cells x y with velX := 0 }
      else acc.cells x y := by
  simp only [leftRightStep, Grid.update_cells]
  split_ifs <;> first | rfl | omega

theorem botTop_fold_cells (rows : Nat) :
    ∀ (n : Nat) (g : Grid) (x y : Nat),
      ((List.range n).foldl (botTopStep rows) g).cells x y =
        if x < n ∧ y = rows - 1 then
          { g.cells x y with velX := 0, velY := 0, cellType := CellType.SOLID }
        else if x < n ∧ y = 0 then { g.cells x y with velY := 0 }
        else g.cells x y := by
  intro n
  induction n with
  | zero => intro g x y; simp
  | succ n ih =>
    intro g x y
    rw [List.range_succ, List.foldl_append, List.foldl_cons, List.foldl_nil,
      botTopStep_cells, ih]
    split_ifs <;> first | rfl | omega

theorem leftRight_fold_cells (cols : Nat) :
    ∀ (n : Nat) (g : Grid) (x y : Nat),
      ((List.range n).foldl (leftRightStep cols) g).cells x y =
        if y < n ∧ x = cols - 1 then
          { g.cells x y with velX := 0, velY := 0, cellType := CellType.SOLID }
        else if y < n ∧ x = 0 then { g.cells x y with velX := 0 }
        else g.cells x y := by
  intro n
  induction n with
  | zero => intro g x y; simp
  | succ n ih =>
    intro g x y
    rw [List.range_succ, List.foldl_append, List.foldl_cons, List.foldl_nil,
      leftRightStep_cells, ih]
    split_ifs <;> first | rfl | omega

theorem boundaryCollide_cells (g : Grid) (x y : Nat) :
    (boundaryCollide g).cells x y =
      (fun c =>
        if y < g.rowCount ∧ x = g.colCount - 1 then
          { c with velX := 0, velY := 0, cellType := CellType.SOLID }
        else if y < g.rowCount ∧ x = 0 then { c with velX := 0 }
        else c)
      (if x < g.colCount ∧ y = g.rowCount - 1 then
          { g.cells x y with velX := 0, velY := 0, cellType := CellType.SOLID }
        else if x < g.colCount ∧ y = 0 then { g.cells x y with velY := 0 }
        else g.cells x y) := by
  unfold boundaryCollide
  rw [leftRight_fold_cells, botTop_fold_cells]

theorem natCeil_three : natCeil 3 = 3 := by
  norm_num [natCeil]
  decide

/-- Claim C2: for every grid state with at least one row and one column, after
boundaryCollide returns, the bottom row Y velocity, the top row X and Y
velocities, the left column X velocity and the right column X and Y velocities
are all exactly zero. -/
theorem boundaryCollide_edge_velocities_zero (g : Grid)
    (hc : 1 ≤ g.colCount) (hr : 1 ≤ g.rowCount) :
    (∀ x, x < g.colCount →
      ((boundaryCollide g).cells x 0).velY = 0 ∧
      ((boundaryCollide g).cells x (g.rowCount - 1)).velX = 0 ∧
      ((boundaryCollide g).cells x (g.rowCount - 1)).velY = 0) ∧
    (∀ y, y < g.rowCount →
      ((boundaryCollide g).cells 0 y).velX = 0 ∧
      ((boundaryCollide g).cells (g.colCount - 1) y).velX = 0 ∧
      ((boundaryCollide g).cells (g.colCount - 1) y).velY = 0) := by
  constructor
  · intro x hx
    refine ⟨?_, ?_, ?_⟩ <;>
      · rw [boundaryCollide_cells]
        split_ifs <;> first | rfl | omega
  · intro y hy
    refine ⟨?_, ?_, ?_⟩ <;>
      · rw [boundaryCollide_cells]
        split_ifs <;> first | rfl | omega

/-- Witness for the C2 theorem on the concrete 2 by 2 grid bcGrid. -/
theorem boundaryCollide_edge_velocities_zero_witness :
    1 ≤ bcGrid.colCount ∧ 1 ≤ bcGrid.rowCount ∧
    ((boundaryCollide bcGrid).cells 0 0).velY = 0 := by
  have hc : bcGrid.colCount = 2 := natCeil_two
  have hr : bcGrid.rowCount = 2 := natCeil_two
  refine ⟨by omega, by omega, ?_⟩
  exact ((boundaryCollide_edge_velocities_zero bcGrid (by omega) (by omega)).1 0 (by omega)).1

/-- Claim C5, counterexample: on the 3 by 3 all-FLUID grid g3x3, the corner
cell (0, 0) lies on the grid boundary (bottom row and left column), yet after
boundaryCollide it is still FLUID, not SOLID: the source marks only the top row
and the right column SOLID. -/
theorem boundaryCollide_corner_not_solid :
    ((boundaryCollide g3x3).cells 0 0).cellType = CellType.FLUID ∧
    CellType.FLUID ≠ CellType.SOLID := by
  constructor
  · rw [boundaryCollide_cells]
    rw [show g3x3.colCount = 3 from natCeil_three, show g3x3.rowCount = 3 from natCeil_three]
    norm_num
    rfl
  · decide

/-- Claim C5, amended: boundaryCollide sets the type flag to SOLID exactly on
the top row and the right column; a boundary cell of the bottom row or the left
column that is not also in the top row or the right column keeps its previous
type flag. -/
theorem boundaryCollide_solid_top_right (g : Grid)
    (hc : 1 ≤ g.colCount) (hr : 1 ≤ g.rowCount) :
    (∀ x, x < g.colCount →
      ((boundaryCollide g).cells x (g.rowCount - 1)).cellType = CellType.SOLID) ∧
    (∀ y, y < g.rowCount →
      ((boundaryCollide g).cells (g.colCount - 1) y).cellType = CellType.SOLID) ∧
    (∀ x y, x < g.colCount - 1 → y < g.rowCount - 1 →
      ((boundaryCollide g).cells x y).cellType = (g.cells x y).cellType) := by
  refine ⟨fun x hx => ?_, fun y hy => ?_, fun x y hx hy => ?_⟩ <;>
    · rw [boundaryCollide_cells]
      split_ifs <;> first | rfl | omega

/-- Witness for the amended C5 theorem on the concrete grid g3x3. -/
theorem boundaryCollide_solid_top_right_witness :
    1 ≤ g3x3.colCount ∧ 1 ≤ g3x3.rowCount ∧
    ((boundaryCollide g3x3).cells 1 (g3x3.rowCount - 1)).cellType = CellType.SOLID := by
  have hc : g3x3.colCount = 3 := natCeil_three
  have hr : g3x3.rowCount = 3 := natCeil_three
  refine ⟨by omega, by omega, ?_⟩
  exact (boundaryCollide_solid_top_right g3x3 (by omega) (by omega)).1 1 (by omega)

/-! ## The advection clamp, construction, and the frame loop -/

/-- Claim C3, evaluation at the failing input: on a grid of width 4 and height
4 the backtraced point (5, 3/2) (reachable from the X face sample at (3, 3/2)
when the sampled velocity is (-2, 0) and dt = 1) is returned UNCHANGED by the
clamp of advectVelocity even though its x coordinate exceeds the width: the
source sets position.x to the width only when position.y exceeds the WIDTH.
The clamp the spec describes as intended returns (4, 3/2). -/
theorem advect_clamp_asymmetry :
    advectClamp zeroGrid (5, 3/2) = (5, 3/2) ∧
    specClampAxes zeroGrid (5, 3/2) = (4, 3/2) ∧
    ¬ ((5 : ℚ) ≤ zeroGrid.width) := by
  refine ⟨?_, ?_, ?_⟩
  · norm_num [advectClamp, zeroGrid]
  · norm_num [specClampAxes, clampQ, zeroGrid, Prod.ext_iff]
  · norm_num [zeroGrid]

theorem advanceTimeStep_frameReady (dt : ℚ) (s : FluidSolver) :
    (advanceTimeStep dt s).frameReady = s.frameReady := rfl

/-- Claim C10: if the frame-ready flag is already true when advanceFrame is
called, the call is a no-op: the while loop body never runs, and the grid,
particle set and frame-ready flag are all returned exactly as they were. -/
theorem advanceFrame_noop_when_ready (fuel : Nat) (s : FluidSolver)
    (h : s.frameReady = true) :
    advanceFrame fuel s = some s := by
  unfold advanceFrame
  rw [advanceFrameLoop.eq_def]
  simp [h]

/-- Witness for the C10 theorem at the concrete ready state readySolver. -/
theorem advanceFrame_noop_when_ready_witness :
    readySolver.frameReady = true ∧ advanceFrame 5 readySolver = some readySolver :=
  ⟨rfl, advanceFrame_noop_when_ready 5 readySolver rfl⟩

theorem foldlConst {α β : Type _} : ∀ (l : List α) (b : β), l.foldl (fun acc _ => acc) b = b
  | [], _ => rfl
  | _ :: l, b => foldlConst l b

theorem natCeil_nonpos (q : ℚ) (hq : q ≤ 0) : natCeil q = 0 := by
  unfold natCeil
  rw [Int.toNat_eq_zero]
  exact Int.ceil_le.mpr (by exact_mod_cast hq)

theorem natCeil_neg_one : natCeil (-1) = 0 := natCeil_nonpos (-1) (by norm_num)

theorem reset_grid_width (sinFn : ℚ → ℚ) (s : FluidSolver) :
    (reset sinFn s).grid.width = s.width := by
  show ((List.range (natCeil s.height)).foldl (fun acc y =>
    (List.range (natCeil s.width)).foldl (fun acc2 x =>
      acc2.update x y (resetCellWrite sinFn x y)) acc) (Grid.init s.width s.height)).width = s.width
  refine foldlInv (fun g2 : Grid => g2.width = s.width)
    (fun (acc : Grid) (y : Nat) => (List.range (natCeil s.width)).foldl (fun acc2 x =>
      acc2.update x y (resetCellWrite sinFn x y)) acc) (fun b a hb => ?_) _ _ rfl
  exact foldlInv (fun g2 : Grid => g2.width = s.width)
    (fun (acc2 : Grid) (x : Nat) => acc2.update x a (resetCellWrite sinFn x a))
    (fun b2 a2 hb2 => hb2) _ b hb

theorem reset_grid_height (sinFn : ℚ → ℚ) (s : FluidSolver) :
    (reset sinFn s).grid.height = s.height := by
  show ((List.range (natCeil s.height)).foldl (fun acc y =>
    (List.range (natCeil s.width)).foldl (fun acc2 x =>
      acc2.update x y (resetCellWrite sinFn x y)) acc) (Grid.init s.width s.height)).height = s.height
  refine foldlInv (fun g2 : Grid => g2.height = s.height)
    (fun (acc : Grid) (y : Nat) => (List.range (natCeil s.width)).foldl (fun acc2 x =>
      acc2.update x y (resetCellWrite sinFn x y)) acc) (fun b a hb => ?_) _ _ rfl
  exact foldlInv (fun g2 : Grid => g2.height = s.height)
    (fun (acc2 : Grid) (x : Nat) => acc2.update x a (resetCellWrite sinFn x a))
    (fun b2 a2 hb2 => hb2) _ b hb

/-- Claim C8, counterexample: constructing a FluidSolver with width -1 and
height -1 does not fail.  The constructor performs no validation and produces a
solver whose grid has zero columns, whose particle set is empty and whose
frame-ready flag is false. -/
theorem construction_accepts_nonpositive :
    (mkFluidSolver (-1) (-1) (fun q => q)).grid.colCount = 0 ∧
    (mkFluidSolver (-1) (-1) (fun q => q)).particles = [] ∧
    (mkFluidSolver (-1) (-1) (fun q => q)).frameReady = false := by
  refine ⟨?_, ?_, rfl⟩
  · unfold Grid.colCount
    rw [show (mkFluidSolver (-1) (-1) (fun q => q)).grid.width = -1 from
      reset_grid_width (fun q => q) _]
    exact natCeil_neg_one
  · show ((List.range (natCeil (-1 : ℚ))).foldl (fun acc y =>
        (List.range (natCeil (-1 : ℚ))).foldl (fun acc2 x =>
          acc2 ++ particlesForCell x y) acc) ([] : List (ℚ × ℚ))) = []
    rw [natCeil_neg_one]
    rfl

/-- Claim C8, amended: construction never fails.  For every width, height and
sin function the constructor returns a solver; when the width or the height is
non-positive the produced solver has an empty particle set, the frame-ready
flag false, and a grid with zero columns or zero rows.  No eager rejection of
non-positive dimensions exists in the source. -/
theorem construction_total_nonpositive_empty (w h : ℚ) (sinFn : ℚ → ℚ)
    (hwh : w ≤ 0 ∨ h ≤ 0) :
    (mkFluidSolver w h sinFn).particles = [] ∧
    (mkFluidSolver w h sinFn).frameReady = false ∧
    ((mkFluidSolver w h sinFn).grid.colCount = 0 ∨
      (mkFluidSolver w h sinFn).grid.rowCount = 0) := by
  have hw : (mkFluidSolver w h sinFn).grid.width = w := reset_grid_width sinFn _
  have hh : (mkFluidSolver w h sinFn).grid.height = h := reset_grid_height sinFn _
  rcases hwh with hq | hq
  · refine ⟨?_, rfl, Or.inl ?_⟩
    · show ((List.range (natCeil h)).foldl (fun acc y =>
        (List.range (natCeil w)).foldl (fun acc2 x =>
          acc2 ++ particlesForCell x y) acc) ([] : List (ℚ × ℚ))) = []
      rw [natCeil_nonpos w hq]
      exact foldlConst _ _
    · unfold Grid.colCount
      rw [hw]
      exact natCeil_nonpos w hq
  · refine ⟨?_, rfl, Or.inr ?_⟩
    · show ((List.range (natCeil h)).foldl (fun acc y =>
        (List.range (natCeil w)).foldl (fun acc2 x =>
          acc2 ++ particlesForCell x y) acc) ([] : List (ℚ × ℚ))) = []
      rw [natCeil_nonpos h hq]
      rfl
    · unfold Grid.rowCount
      rw [hh]
      exact natCeil_nonpos h hq

/-- Witness for the amended C8 theorem at width -1, height -1. -/
theorem construction_total_nonpositive_empty_witness :
    ((-1 : ℚ) ≤ 0 ∨ (-1 : ℚ) ≤ 0) ∧
    (mkFluidSolver (-1) (-1) (fun q => q + 1)).particles = [] :=
  ⟨Or.inl (by norm_num),
    (construction_total_nonpositive_empty (-1) (-1) (fun q => q + 1)
      (Or.inl (by norm_num))).1⟩

theorem zeroGrid_magSq : zeroGrid.maxVelocityMagnitudeSq = 0 := by
  norm_num [Grid.maxVelocityMagnitudeSq, zeroGrid, Grid.colCount, Grid.rowCount,
    natCeil_four, List.range_succ, List.foldl_append, List.foldl_cons, List.foldl_nil]

/-- Claim C6, counterexample: the division of line 84 carries no explicit
guard.  Translating lines 84 to 90 literally, with the division read as total
field division (a zero divisor yielding zero), produces a sub-step of 0 - not
the full remaining frame time - when the maximum velocity magnitude is zero, as
it is on the concrete grid zeroGrid.  The behavior the claim states therefore
rests on the IEEE convention that division by zero produces infinity, which the
clamp on line 88 then replaces by the frame time; it is not obtained by an
explicit guard. -/
theorem subStep_unguarded_division_zero :
    subStepUnguarded 0 frameTimeSec = 0 ∧
    (0 : ℚ) ≠ frameTimeSec ∧
    zeroGrid.maxVelocityMagnitudeSq = 0 := by
  refine ⟨?_, by norm_num [frameTimeSec], zeroGrid_magSq⟩
  norm_num [subStepUnguarded, CFLCoefficient, frameTimeSec]

/-- Claim C6, amended: advanceFrame terminates on every state whose maximum
velocity magnitude is exactly zero: within two loop iterations it returns a
state whose frame-ready flag is set, and the sub-step of the single simulated
iteration equals the full remaining frame time 1/30 (with the unguarded
division by the zero magnitude modelled per IEEE float semantics inside
subStep).  The division is not explicitly guarded in the source. -/
theorem advanceFrame_zero_velocity_terminates (s : FluidSolver)
    (h : s.grid.maxVelocityMagnitudeSq = 0) :
    (∃ s2, advanceFrame 2 s = some s2 ∧ s2.frameReady = true) ∧
    subStep s.grid frameTimeSec = some frameTimeSec := by
  have hsub : subStep s.grid frameTimeSec = some frameTimeSec := by
    simp [subStep, h]
  refine ⟨?_, hsub⟩
  by_cases hr : s.frameReady
  · refine ⟨s, ?_, hr⟩
    unfold advanceFrame
    rw [advanceFrameLoop.eq_def]
    simp [hr]
  · refine ⟨{ advanceTimeStep frameTimeSec s with frameReady := true }, ?_, rfl⟩
    have h1 : ¬ (frameTimeSec ≤ 0) := by norm_num [frameTimeSec]
    have h2 : frameTimeSec - frameTimeSec ≤ 0 := by norm_num
    unfold advanceFrame
    rw [advanceFrameLoop.eq_def]
    simp only [hr, Bool.false_eq_true, if_false, h1, hsub]
    rw [advanceFrameLoop.eq_def]
    simp [advanceTimeStep_frameReady, hr, h2]

/-- Witness for the amended C6 theorem at the concrete zero-velocity state
zeroSolver. -/
theorem advanceFrame_zero_velocity_terminates_witness :
    zeroSolver.grid.maxVelocityMagnitudeSq = 0 ∧
    subStep zeroSolver.grid frameTimeSec = some frameTimeSec :=
  ⟨zeroGrid_magSq, (advanceFrame_zero_velocity_terminates zeroSolver zeroGrid_magSq).2⟩

/-! ## The reset state on a 4 by 4 solver -/

set_option maxRecDepth 8000 in
/-- Claim C7: for a solver whose width and height are 4, after reset() the
particle set holds exactly 256 tracers (16 cells times 16 tracers), every cell
of the 4 by 4 grid is FLUID with pressure 1, and the frame-ready flag is
false.  The synthetic sin-based velocities do not affect any of these facts, so
the statement holds for every sin function. -/
theorem reset_4x4_state (sinFn : ℚ → ℚ) (s : FluidSolver)
    (hw : s.width = 4) (hh : s.height = 4) :
    (reset sinFn s).particles.length = 256 ∧
    (∀ x y, x < 4 → y < 4 →
      ((reset sinFn s).grid.cells x y).cellType = CellType.FLUID ∧
      ((reset sinFn s).grid.cells x y).pressure = 1) ∧
    (reset sinFn s).frameReady = false := by
  obtain ⟨w, h, g0, ps, fr⟩ := s
  replace hw : w = 4 := hw
  replace hh : h = 4 := hh
  subst hw hh
  refine ⟨?_, ?_, rfl⟩
  · show ((List.range (natCeil 4)).foldl (fun acc y =>
      (List.range (natCeil 4)).foldl (fun acc2 x =>
        acc2 ++ particlesForCell x y) acc) ([] : List (ℚ × ℚ))).length = 256
    rw [natCeil_four]
    rfl
  · intro x y hx hy
    show (((List.range (natCeil 4)).foldl (fun acc y2 =>
      (List.range (natCeil 4)).foldl (fun acc2 x2 =>
        acc2.update x2 y2 (resetCellWrite sinFn x2 y2)) acc) (Grid.init 4 4)).cells x y).cellType
        = CellType.FLUID ∧
      (((List.range (natCeil 4)).foldl (fun acc y2 =>
      (List.range (natCeil 4)).foldl (fun acc2 x2 =>
        acc2.update x2 y2 (resetCellWrite sinFn x2 y2)) acc) (Grid.init 4 4)).cells x y).pressure
        = 1
    rw [natCeil_four]
    interval_cases x <;> interval_cases y <;> exact ⟨rfl, rfl⟩

/-- Witness for the C7 theorem at the concrete state solver44. -/
theorem reset_4x4_state_witness :
    solver44.width = 4 ∧ (reset (fun q => q) solver44).particles.length = 256 :=
  ⟨rfl, (reset_4x4_state (fun q => q) solver44 rfl rfl).1⟩
